import Mathlib

/-!
Shallow embedding of the real-time notification subsystem of the
Verline front end:

* `src/services/websocket.ts` — the `WebSocketService` class (transport
  channel, reconnect policy, event dispatcher);
* `src/contexts/NotificationsContext.tsx` — the notification store
  (list + unread count) and its event handlers and mutation operations.

TypeScript `number` is modelled as `Int`, `string` as `String`,
nullable fields as `Option`.  The store's React `useState` cells are
modelled as fields of an explicit state record; each event handler and
mutation becomes a pure state-transition function.  An `async` mutation
whose `await`ed REST call may reject is modelled with an explicit
`restOk : Bool` parameter: `restOk = false` means the awaited call threw,
so control jumped to the `catch` block at that point.
-/

/-- `NotificationData.sender` from `src/services/websocket.ts`. -/
structure SenderData where
  id : Int
  username : String
  full_name : String
  profile_picture : Option String
  deriving Repr, DecidableEq

/-- `NotificationData` from `src/services/websocket.ts`. -/
structure NotificationData where
  id : Int
  type : String
  message : String
  sender : SenderData
  painting_id : Option Int
  comment_id : Option Int
  rating_id : Option Int
  is_read : Bool
  created_at : String
  deriving Repr, DecidableEq

/-- The notification store state: the two `useState` cells
`notifications` and `unreadCount` of `NotificationsContext.tsx`.
`unreadCount` is an `Int` because the TypeScript value is a `number`
with no clamping applied on the `unread_count` override path. -/
structure StoreState where
  notifications : List NotificationData
  unreadCount : Int
  deriving Repr, DecidableEq

/-- `handleNotification` (NotificationsContext.tsx lines 44–56):
prepend the pushed item, increment the unread count.  (The browser
`Notification` alert side effect carries no store state.) -/
def handleNotification (d : NotificationData) (s : StoreState) : StoreState :=
  { notifications := d :: s.notifications
    unreadCount := s.unreadCount + 1 }

/-- `handleUnreadCount` (lines 58–61): overwrite the count with the
server-reported value, verbatim. -/
def handleUnreadCount (c : Int) (s : StoreState) : StoreState :=
  { s with unreadCount := c }

/-- `handleNotificationsList` (lines 63–66): replace the whole list
with the snapshot payload; the unread count cell is not touched. -/
def handleNotificationsList (ds : List NotificationData) (s : StoreState) :
    StoreState :=
  { s with notifications := ds }

/-- The `map` body of `markAsRead` (lines 119–123): set `is_read` on the
matching id, leave every other entry alone. -/
def markReadEntry (notificationId : Int) (n : NotificationData) :
    NotificationData :=
  if n.id = notificationId then { n with is_read := true } else n

/-- `markAsRead` (lines 110–130).  The WebSocket send is fire-and-forget
(no state effect; `send` only logs when the socket is closed).  The
`await api.notifications.markAsRead(...)` comes BEFORE the local state
updates: when it rejects (`restOk = false`) control jumps to the `catch`
block, which only logs — so neither `setNotifications` nor
`setUnreadCount` runs and the state is unchanged.  On success the list
is mapped with `markReadEntry` and the count becomes
`Math.max(0, prev - 1)`. -/
def markAsRead (restOk : Bool) (notificationId : Int) (s : StoreState) :
    StoreState :=
  if restOk then
    { notifications := s.notifications.map (markReadEntry notificationId)
      unreadCount := max 0 (s.unreadCount - 1) }
  else s

/-- `markAllAsRead` (lines 132–149): same structure; on REST success all
entries get `is_read := true` and the count becomes `0`; on rejection
the `catch` only logs and the state is unchanged. -/
def markAllAsRead (restOk : Bool) (s : StoreState) : StoreState :=
  if restOk then
    { notifications := s.notifications.map (fun n => { n with is_read := true })
      unreadCount := 0 }
  else s

/-- `refreshNotifications` (lines 151–165): `api.notifications.getAll()`
is awaited first; if it rejects nothing changes.  If it resolves, the
list is overwritten; then `getUnreadCount()` is awaited — if that second
call rejects the `catch` runs after the list was already overwritten, so
only the list changed; if it resolves the count is overwritten too. -/
def refreshNotifications (fetchList : Option (List NotificationData))
    (fetchCount : Option Int) (s : StoreState) : StoreState :=
  match fetchList with
  | none => s
  | some ds =>
    match fetchCount with
    | none => { s with notifications := ds }
    | some c => { notifications := ds, unreadCount := c }

/-- One store-level event: the three push handlers wired to the
dispatcher plus the three user operations of the context. -/
inductive StoreEvent where
  | push (d : NotificationData)
  | unread (c : Int)
  | list (ds : List NotificationData)
  | markRead (restOk : Bool) (id : Int)
  | markAllRead (restOk : Bool)
  | refresh (fetchList : Option (List NotificationData)) (fetchCount : Option Int)
  deriving Repr

/-- Dispatch one event to the handler the context registers for it. -/
def stepStore (e : StoreEvent) (s : StoreState) : StoreState :=
  match e with
  | .push d => handleNotification d s
  | .unread c => handleUnreadCount c s
  | .list ds => handleNotificationsList ds s
  | .markRead restOk i => markAsRead restOk i s
  | .markAllRead restOk => markAllAsRead restOk s
  | .refresh f1 f2 => refreshNotifications f1 f2 s

/-- A whole session: fold the event sequence over an initial state. -/
def runStore (s : StoreState) (es : List StoreEvent) : StoreState :=
  es.foldl (fun st e => stepStore e st) s

/-!
## Transport channel: `WebSocketService` (`src/services/websocket.ts`)

The browser `WebSocket` object is abstracted to its `readyState`; the
service's `NodeJS.Timeout` handle for the reconnect timer is modelled as
`Option Nat` holding the delay (in ms) of the single pending timer, or
`none` when no timer is pending (`scheduleReconnect` always calls
`clearReconnectTimer()` before `setTimeout`, so the field never orphans
a live timer).  Outbound frames and emitted event names are recorded in
append-only logs so that "exactly one `get_notifications`" is a
statement about the log.
-/

/-- Browser `WebSocket.readyState`. -/
inductive ReadyState where
  | connecting
  | opened
  | closing
  | closed
  deriving Repr, DecidableEq

/-- The mutable fields of the `WebSocketService` singleton, plus the two
observation logs (`sentLog` for `this.ws.send(...)` frames that actually
went out, `emitLog` for locally `emit`ted lifecycle event names). -/
structure WSService where
  ws : Option ReadyState
  reconnectTimer : Option Nat
  userId : Option Int
  token : Option String
  isConnecting : Bool
  sentLog : List String
  emitLog : List String
  deriving Repr, DecidableEq

/-- The fresh singleton: every field null/false, logs empty. -/
def WSService.init : WSService :=
  { ws := none, reconnectTimer := none, userId := none, token := none
    isConnecting := false, sentLog := [], emitLog := [] }

/-- JavaScript truthiness of the guard `this.userId && this.token`
(websocket.ts line 62 and 135): `null` is falsy, the number `0` is
falsy, the empty string is falsy. -/
def hasIdentity (s : WSService) : Bool :=
  (match s.userId with | none => false | some u => u != 0) &&
  (match s.token with | none => false | some t => t != "")

/-- `clearReconnectTimer` (lines 142–147): `clearTimeout` the pending
timer, if any, and null the field. -/
def clearReconnectTimer (s : WSService) : WSService :=
  { s with reconnectTimer := none }

/-- `scheduleReconnect` (lines 130–140): clear any pending timer, then
`setTimeout(..., 3000)` — always the same fixed 3000 ms delay. -/
def scheduleReconnect (s : WSService) : WSService :=
  let s := clearReconnectTimer s
  { s with reconnectTimer := some 3000 }

/-- `send(message)` (lines 91–97): serialize onto the wire only when a
socket exists and is OPEN; otherwise log a warning and drop. -/
def WSService.send (s : WSService) (msgType : String) : WSService :=
  if s.ws = some ReadyState.opened then { s with sentLog := s.sentLog ++ [msgType] }
  else s

/-- `connect(userId, token)` (lines 20–78).  Reentrant guard: no-op when
`isConnecting` or the current socket is OPEN.  Otherwise store the
identity, raise the connecting flag and construct the socket; if the
constructor throws (`ctorOk = false`) the `catch` clears the flag and
emits `error`, leaving `this.ws` at its previous value (the failed
assignment never happened). -/
def connect (uid : Int) (tok : String) (ctorOk : Bool) (s : WSService) :
    WSService :=
  if s.isConnecting || s.ws = some ReadyState.opened then s
  else
    let s := { s with userId := some uid, token := some tok, isConnecting := true }
    if ctorOk then { s with ws := some ReadyState.connecting }
    else { s with isConnecting := false, emitLog := s.emitLog ++ ["error"] }

/-- The `onopen` handler (lines 35–43), fired when the socket reaches
OPEN: clear the connecting flag, clear any pending reconnect timer,
emit `connect`, then `send({type: "get_notifications"})` — which goes
out because the socket is OPEN at that point. -/
def onopen (s : WSService) : WSService :=
  let s := { s with ws := some ReadyState.opened }
  let s := { s with isConnecting := false }
  let s := clearReconnectTimer s
  let s := { s with emitLog := s.emitLog ++ ["connect"] }
  s.send "get_notifications"

/-- The `onclose` handler (lines 55–65): clear the connecting flag, null
the socket, emit `disconnect`; then auto-reconnect only when the close
code is not the manual sentinel `1000` AND `this.userId && this.token`
is truthy. -/
def onclose (code : Int) (s : WSService) : WSService :=
  let s := { s with isConnecting := false, ws := none,
                    emitLog := s.emitLog ++ ["disconnect"] }
  if code != 1000 && hasIdentity s then scheduleReconnect s else s

/-- The `onerror` handler (lines 67–71): clear the connecting flag and
emit `error`. -/
def onerror (s : WSService) : WSService :=
  { s with isConnecting := false, emitLog := s.emitLog ++ ["error"] }

/-- `disconnect()` (lines 80–89): cancel any pending reconnect timer,
null the identity, and when a socket exists close it with code 1000 and
null the field. -/
def disconnect (s : WSService) : WSService :=
  let s := clearReconnectTimer s
  let s := { s with userId := none, token := none }
  match s.ws with
  | some _ => { s with ws := none }
  | none => s

/-- The `setTimeout` callback of `scheduleReconnect` (lines 134–139),
fired when the (sole) pending timer elapses: the timer is no longer
pending, and if `this.userId && this.token` is still truthy the service
reconnects under the stored identity. -/
def timerFire (ctorOk : Bool) (s : WSService) : WSService :=
  match s.reconnectTimer with
  | none => s
  | some _ =>
    let s := { s with reconnectTimer := none }
    match s.userId, s.token with
    | some u, some t =>
      if u != 0 && t != "" then connect u t ctorOk s else s
    | _, _ => s

/-!
## Event dispatcher (`on`/`off`/`emit`, websocket.ts lines 99–128)

A listener callback is abstracted to an identifier plus a flag saying
whether invoking it throws; `emit` is observed through the trace of
`(listener id, payload)` invocations it performs.  The registry is the
`Map<string, Function[]>` modelled as an association list.
-/

/-- One registered callback: an identity (JS compares callbacks by
object identity in `off`) and whether calling it throws. -/
structure Listener where
  hid : Nat
  throws : Bool
  deriving Repr, DecidableEq

/-- The dispatcher registry `this.listeners`. -/
structure Dispatcher where
  listeners : List (String × List Listener)
  deriving Repr, DecidableEq

/-- `this.listeners.get(event)`: `none` when the key is absent. -/
def getListeners (m : List (String × List Listener)) (e : String) :
    Option (List Listener) :=
  (m.find? (fun p => p.1 == e)).map (fun p => p.2)

/-- Invoking one callback with the payload: `Except` result models a
synchronous throw. -/
def invokeListener (h : Listener) (_payload : String) : Except Unit Unit :=
  if h.throws then Except.error () else Except.ok ()

/-- The `forEach` body of `emit` (lines 120–126): each callback runs
inside `try { callback(data) } catch { console.error(...) }`, so a
throw is swallowed and the loop continues with the next callback.  The
returned trace lists every invocation in registration order. -/
def emitLoop (payload : String) : List Listener → List (Nat × String)
  | [] => []
  | h :: rest =>
    match invokeListener h payload with
    | Except.ok _ => (h.hid, payload) :: emitLoop payload rest
    | Except.error _ => (h.hid, payload) :: emitLoop payload rest

/-- `emit(event, data)` (lines 117–128): look the name up; when present,
run every current callback in order; the registry itself is returned
unchanged (the handler array is only read). -/
def emit (d : Dispatcher) (event : String) (payload : String) :
    List (Nat × String) × Dispatcher :=
  match getListeners d.listeners event with
  | some hs => (emitLoop payload hs, d)
  | none => ([], d)

/-!
## Concrete sample data for counterexamples and witnesses
-/

/-- A concrete sender record. -/
def sampleSender : SenderData :=
  { id := 2, username := "alice", full_name := "Alice A", profile_picture := none }

/-- A concrete unread notification with id 1. -/
def n1unread : NotificationData :=
  { id := 1, type := "comment", message := "hi", sender := sampleSender
    painting_id := none, comment_id := none, rating_id := none
    is_read := false, created_at := "2024-01-01" }

/-- The same notification with `is_read = true`. -/
def n1read : NotificationData := { n1unread with is_read := true }

/-!
## Store-level helper predicates and lemmas
-/

/-- Entries of the new list line up with the old list, keep their ids,
and never drop a `true` `is_read` back to `false`. -/
def preservesRead (l l2 : List NotificationData) : Prop :=
  List.Forall₂ (fun a b => a.id = b.id ∧ (a.is_read = true → b.is_read = true)) l l2

/-- Events whose payload carries a server-reported count: that count is
non-negative.  All other events satisfy this trivially. -/
def eventCountNonNeg : StoreEvent → Bool
  | .unread c => decide (0 ≤ c)
  | .refresh _ (some c) => decide (0 ≤ c)
  | _ => true

lemma stepStore_unreadCount_nonneg (e : StoreEvent) (s : StoreState)
    (hs : 0 ≤ s.unreadCount) (he : eventCountNonNeg e = true) :
    0 ≤ (stepStore e s).unreadCount := by
  cases e with
  | push d =>
    simp only [stepStore, handleNotification]
    omega
  | unread c =>
    simp only [eventCountNonNeg, decide_eq_true_eq] at he
    simpa [stepStore, handleUnreadCount] using he
  | list ds =>
    simpa [stepStore, handleNotificationsList] using hs
  | markRead restOk i =>
    cases restOk <;> simp [stepStore, markAsRead, hs, le_max_left]
  | markAllRead restOk =>
    cases restOk <;> simp [stepStore, markAllAsRead, hs]
  | refresh f1 f2 =>
    cases f1 with
    | none => simpa [stepStore, refreshNotifications] using hs
    | some ds =>
      cases f2 with
      | none => simpa [stepStore, refreshNotifications] using hs
      | some c =>
        simp only [eventCountNonNeg, decide_eq_true_eq] at he
        simpa [stepStore, refreshNotifications] using he

lemma runStore_unreadCount_nonneg (es : List StoreEvent) (s : StoreState)
    (hs : 0 ≤ s.unreadCount) (he : ∀ e ∈ es, eventCountNonNeg e = true) :
    0 ≤ (runStore s es).unreadCount := by
  induction es generalizing s with
  | nil => simpa [runStore] using hs
  | cons e rest ih =>
    have h1 : 0 ≤ (stepStore e s).unreadCount :=
      stepStore_unreadCount_nonneg e s hs (he e (List.mem_cons_self e rest))
    have h2 : ∀ x ∈ rest, eventCountNonNeg x = true :=
      fun x hx => he x (List.mem_cons_of_mem e hx)
    simpa [runStore] using ih (stepStore e s) h1 h2

/-!
## Claim theorems — notification store
-/

/-- Claim C1, counterexample.  The claim says the local update of
`markAsRead` is applied on initiation regardless of the REST outcome, so
after a failed REST call the targeted item would have `is_read = true`
and the count would be decremented.  In the code the local `setState`
calls come AFTER the `await`ed REST call, so on rejection the `catch`
runs and the state is completely unchanged: notification 1 is still
unread and the count is still 1. -/
theorem markAsRead_rest_failure_no_local_update :
    stepStore (StoreEvent.markRead false 1) ⟨[n1unread], 1⟩ = ⟨[n1unread], 1⟩ ∧
    n1unread.is_read = false ∧
    (stepStore (StoreEvent.markRead false 1) ⟨[n1unread], 1⟩).unreadCount = 1 :=
  ⟨rfl, rfl, rfl⟩

/-- Claim C1, amended: the local update of `markAsRead`/`markAllAsRead`
is applied only when the awaited REST call succeeds; when it fails the
local state is unchanged (nothing is applied, hence nothing to roll
back).  On success `markAsRead` maps the matching entry to read and
clamps the decrement at 0; `markAllAsRead` marks every entry read and
zeroes the count. -/
theorem mark_ops_update_only_on_rest_success (s : StoreState) (i : Int) :
    markAsRead false i s = s ∧
    markAllAsRead false s = s ∧
    (markAsRead true i s).notifications = s.notifications.map (markReadEntry i) ∧
    (markAsRead true i s).unreadCount = max 0 (s.unreadCount - 1) ∧
    (∀ n ∈ (markAllAsRead true s).notifications, n.is_read = true) ∧
    (markAllAsRead true s).unreadCount = 0 := by
  refine ⟨rfl, rfl, rfl, rfl, ?_, rfl⟩
  intro n hn
  simp only [markAllAsRead, if_pos, List.mem_map] at hn
  obtain ⟨m, _, rfl⟩ := hn
  rfl

/-- Claim C2, counterexample.  The claim says a notification whose
`is_read` is `true` never reverts to `false` under any later event.  A
`notifications_list` snapshot replaces the list wholesale, so a snapshot
carrying the same id with `is_read = false` reverts it: starting from a
store holding the read notification 1, the snapshot `[n1unread]` leaves
the store holding id 1 with `is_read = false`. -/
theorem notifications_list_reverts_read_flag :
    n1read.is_read = true ∧
    n1read.id = n1unread.id ∧
    (stepStore (StoreEvent.list [n1unread]) ⟨[n1read], 0⟩).notifications
      = [n1unread] ∧
    n1unread.is_read = false :=
  ⟨rfl, rfl, rfl, rfl⟩

/-- Claim C2, amended: read-monotonicity holds for the mutation
operations — `markAsRead` and `markAllAsRead` (with either REST outcome)
keep every entry's id and never turn a `true` `is_read` back to `false`;
snapshot-bearing events (`notifications_list`, refresh) replace the list
wholesale and are exempt. -/
theorem mutations_preserve_read_flag (s : StoreState) (restOk : Bool) (i : Int) :
    preservesRead s.notifications
      (stepStore (StoreEvent.markRead restOk i) s).notifications ∧
    preservesRead s.notifications
      (stepStore (StoreEvent.markAllRead restOk) s).notifications := by
  constructor
  · cases restOk with
    | false =>
      simp only [stepStore, markAsRead, if_neg, Bool.false_eq_true,
        not_false_eq_true, preservesRead]
      exact List.forall₂_same.mpr (fun n _ => ⟨rfl, fun h => h⟩)
    | true =>
      simp only [stepStore, markAsRead, if_pos, preservesRead]
      refine List.forall₂_map_right_iff.mpr ?_
      refine List.forall₂_same.mpr (fun n _ => ?_)
      unfold markReadEntry
      by_cases h : n.id = i <;> simp [h]
  · cases restOk with
    | false =>
      simp only [stepStore, markAllAsRead, if_neg, Bool.false_eq_true,
        not_false_eq_true, preservesRead]
      exact List.forall₂_same.mpr (fun n _ => ⟨rfl, fun h => h⟩)
    | true =>
      simp only [stepStore, markAllAsRead, if_pos, preservesRead]
      refine List.forall₂_map_right_iff.mpr ?_
      exact List.forall₂_same.mpr (fun n _ => ⟨rfl, fun _ => rfl⟩)

/-- Claim C5, counterexample.  The claim includes `unread_count`
override events among the operations under which the count stays
non-negative, but `handleUnreadCount` stores the server payload
verbatim with no clamping: a payload of `-1` drives the count to
`-1 < 0`. -/
theorem unread_override_can_go_negative :
    (runStore ⟨[], 0⟩ [StoreEvent.unread (-1)]).unreadCount < 0 := by
  decide

/-- Claim C5, amended: provided every count-carrying payload
(`unread_count` events and refresh count fetches) is non-negative, the
unread count stays non-negative across any event sequence: the
`markAsRead` decrement is clamped at zero, `markAllAsRead` sets zero,
and pushes increment. -/
theorem unreadCount_nonneg_of_nonneg_payloads (s : StoreState)
    (es : List StoreEvent) (hs : 0 ≤ s.unreadCount)
    (he : ∀ e ∈ es, eventCountNonNeg e = true) :
    0 ≤ (runStore s es).unreadCount :=
  runStore_unreadCount_nonneg es s hs he

/-- Witness for the amended C5 theorem at a concrete run: push one
notification, mark it read twice (clamped), override with 5. -/
theorem unreadCount_nonneg_witness :
    0 ≤ (runStore ⟨[], 0⟩ [StoreEvent.push n1unread,
      StoreEvent.markRead true 1, StoreEvent.markRead true 1,
      StoreEvent.unread 5]).unreadCount :=
  unreadCount_nonneg_of_nonneg_payloads ⟨[], 0⟩
    [StoreEvent.push n1unread, StoreEvent.markRead true 1,
      StoreEvent.markRead true 1, StoreEvent.unread 5]
    (by decide) (by decide)

/-- Claim C6: a `notifications_list` event replaces the stored list
wholesale with the snapshot payload and leaves the unread count cell
untouched — `handleNotificationsList` only calls `setNotifications`,
never `setUnreadCount`, and does not recompute the count from the new
list. -/
theorem notifications_list_wholesale_count_frame (s : StoreState)
    (ds : List NotificationData) :
    (stepStore (StoreEvent.list ds) s).notifications = ds ∧
    (stepStore (StoreEvent.list ds) s).unreadCount = s.unreadCount :=
  ⟨rfl, rfl⟩

/-- Claim C9: a `markAsRead` whose REST call succeeds decrements the
count by one (clamped at 0) unconditionally — also when no entry matches
the id or the matching entry is already read; with no matching entry the
list is unchanged; consequently the count can disagree with the number
of unread entries in the list. -/
theorem markAsRead_success_decrements_unconditionally (s : StoreState)
    (i : Int) :
    (markAsRead true i s).unreadCount = max 0 (s.unreadCount - 1) ∧
    ((∀ n ∈ s.notifications, n.id ≠ i) →
      (markAsRead true i s).notifications = s.notifications) ∧
    (∃ (t : StoreState) (j : Int),
      (markAsRead true j t).unreadCount ≠
        (((markAsRead true j t).notifications.filter
          (fun n => !n.is_read)).length : Int)) := by
  refine ⟨rfl, ?_, ⟨⟨[n1unread], 0⟩, 2, by decide⟩⟩
  intro h
  simp only [markAsRead, if_pos]
  have hc : ∀ n ∈ s.notifications, markReadEntry i n = n := by
    intro n hn
    unfold markReadEntry
    rw [if_neg (h n hn)]
  rw [List.map_congr_left hc]
  simp

/-- Witness for C9 at a concrete store: one unread entry with id 1,
count 3, marking the absent id 2 as read. -/
theorem markAsRead_success_decrements_witness :
    (markAsRead true 2 ⟨[n1unread], 3⟩).unreadCount = max 0 (3 - 1) ∧
    (markAsRead true 2 ⟨[n1unread], 3⟩).notifications = [n1unread] :=
  ⟨(markAsRead_success_decrements_unconditionally ⟨[n1unread], 3⟩ 2).1,
   (markAsRead_success_decrements_unconditionally ⟨[n1unread], 3⟩ 2).2.1
     (by decide)⟩

/-!
## Transport-channel helper lemmas
-/

lemma hasIdentity_mk (ws : Option ReadyState) (rt : Option Nat)
    (uid : Option Int) (tok : Option String) (ic : Bool)
    (sl el : List String) :
    hasIdentity ⟨ws, rt, uid, tok, ic, sl, el⟩ =
      ((match uid with | none => false | some u => u != 0) &&
       (match tok with | none => false | some t => t != "")) := rfl

lemma onclose_schedules (code : Int) (s : WSService) (hc : code ≠ 1000)
    (hi : hasIdentity s = true) :
    (onclose code s).reconnectTimer = some 3000 := by
  have hid : hasIdentity { s with isConnecting := false, ws := none, emitLog := s.emitLog ++ ["disconnect"] } = true := hi
  simp only [onclose]
  rw [if_pos]
  · rfl
  · simp [hid, bne_iff_ne, hc]

lemma onclose_hasIdentity (code : Int) (s : WSService) :
    hasIdentity (onclose code s) = hasIdentity s := by
  simp only [onclose]
  split
  · rfl
  · rfl

lemma timerFire_hasIdentity (ok : Bool) (s : WSService) :
    hasIdentity (timerFire ok s) = hasIdentity s := by
  obtain ⟨ws, rt, uid, tok, ic, sl, el⟩ := s
  cases rt with
  | none => rfl
  | some d =>
    cases uid with
    | none =>
      cases tok <;> rfl
    | some u =>
      cases tok with
      | none => rfl
      | some t =>
        by_cases hut : (u != 0 && t != "") = true
        · simp only [timerFire, hut, if_pos, connect]
          split
          · rfl
          · split <;> rfl
        · simp only [timerFire, hut, if_neg, Bool.false_eq_true,
            not_false_eq_true]
          rfl

/-- Claim C3: an abnormal close (code ≠ 1000) while the stored identity
is truthy schedules the single pending reconnect timer at the fixed
3000 ms delay (the `Option` field holds at most one pending timer, and
`scheduleReconnect` clears before setting); the identity survives the
close, and a retry attempt (timer firing, then closing abnormally again)
schedules another timer at the same fixed 3000 ms — no backoff growth. -/
theorem abnormal_close_schedules_fixed_delay (s : WSService) (code : Int)
    (hc : code ≠ 1000) (hi : hasIdentity s = true) :
    (onclose code s).reconnectTimer = some 3000 ∧
    hasIdentity (onclose code s) = true ∧
    (∀ (ok : Bool) (code2 : Int), code2 ≠ 1000 →
      (onclose code2 (timerFire ok (onclose code s))).reconnectTimer
        = some 3000) := by
  have h1 := onclose_schedules code s hc hi
  have h2 : hasIdentity (onclose code s) = true := by
    rw [onclose_hasIdentity]; exact hi
  refine ⟨h1, h2, ?_⟩
  intro ok code2 hc2
  apply onclose_schedules code2 _ hc2
  rw [timerFire_hasIdentity]
  exact h2

/-- Witness for C3: fresh service with identity 42/"tok", abnormal
close 1006, retry whose socket construction succeeds, then another
abnormal close 1006. -/
theorem abnormal_close_schedules_witness :
    (onclose 1006 { WSService.init with userId := some 42, token := some "tok" }).reconnectTimer = some 3000 ∧
    (onclose 1006 (timerFire true (onclose 1006 { WSService.init with userId := some 42, token := some "tok" }))).reconnectTimer = some 3000 := by
  have h := abnormal_close_schedules_fixed_delay
    { WSService.init with userId := some 42, token := some "tok" }
    1006 (by decide) (by decide)
  exact ⟨h.1, h.2.2 true 1006 (by decide)⟩

lemma disconnect_clears (s : WSService) :
    (disconnect s).userId = none ∧ (disconnect s).token = none ∧
    (disconnect s).reconnectTimer = none := by
  obtain ⟨ws, rt, uid, tok, ic, sl, el⟩ := s
  cases ws <;> exact ⟨rfl, rfl, rfl⟩

lemma onclose_cleared_stays_cleared (c : Int) (st : WSService)
    (hu : st.userId = none) (hrt : st.reconnectTimer = none) :
    (onclose c st).userId = none ∧ (onclose c st).reconnectTimer = none := by
  simp only [onclose]
  rw [if_neg]
  · exact ⟨hu, hrt⟩
  · simp [hasIdentity, hu]

lemma onclose_fold_cleared (codes : List Int) (st : WSService)
    (hu : st.userId = none) (hrt : st.reconnectTimer = none) :
    (codes.foldl (fun t c => onclose c t) st).userId = none ∧
    (codes.foldl (fun t c => onclose c t) st).reconnectTimer = none := by
  induction codes generalizing st with
  | nil => exact ⟨hu, hrt⟩
  | cons c rest ih =>
    have h := onclose_cleared_stays_cleared c st hu hrt
    simpa [List.foldl] using ih (onclose c st) h.1 h.2

/-- Claim C4: `disconnect()` cancels the pending reconnect timer and
nulls the stored identity; the cancelled timer can no longer fire
(`timerFire` is the identity when no timer is pending); and after
`disconnect()` an arbitrary sequence of further close events — any
codes, abnormal ones included — never schedules a reconnect timer. -/
theorem disconnect_suppresses_reconnect (s : WSService) (codes : List Int) :
    (disconnect s).reconnectTimer = none ∧
    (disconnect s).userId = none ∧
    (disconnect s).token = none ∧
    (∀ ok : Bool, timerFire ok (disconnect s) = disconnect s) ∧
    (codes.foldl (fun t c => onclose c t) (disconnect s)).reconnectTimer
      = none := by
  obtain ⟨hcu, hct, hcr⟩ := disconnect_clears s
  refine ⟨hcr, hcu, hct, ?_, ?_⟩
  · intro ok
    obtain ⟨ws, rt, uid, tok, ic, sl, el⟩ := s
    cases ws <;> rfl
  · exact (onclose_fold_cleared codes (disconnect s) hcu hcr).2

/-- Claim C7: `connect` is a no-op whenever a connect attempt is in
flight or the socket is OPEN (whatever identity is passed); a successful
open appends exactly one `get_notifications` frame to the outbound log,
clears any pending reconnect timer, and emits `connect`; and calling
`connect` again immediately — during the in-flight attempt or right
after the open — changes nothing, so no duplicate `get_notifications`
is produced. -/
theorem connect_reentrant_single_pull (s : WSService) (u v : Int)
    (t w : String) (ok ok2 : Bool) :
    (s.isConnecting = true ∨ s.ws = some ReadyState.opened →
      connect u t ok s = s) ∧
    (onopen s).sentLog = s.sentLog ++ ["get_notifications"] ∧
    (onopen s).reconnectTimer = none ∧
    (onopen s).emitLog = s.emitLog ++ ["connect"] ∧
    (s.isConnecting = false →
      connect v w ok2 (connect u t true s) = connect u t true s) ∧
    connect v w ok2 (onopen s) = onopen s := by
  refine ⟨?_, ?_, ?_, ?_, ?_, ?_⟩
  · intro h
    rcases h with h | h <;> simp [connect, h]
  · simp [onopen, WSService.send, clearReconnectTimer]
  · simp [onopen, WSService.send, clearReconnectTimer]
  · simp [onopen, WSService.send, clearReconnectTimer]
  · intro h
    by_cases hws : s.ws = some ReadyState.opened
    · simp [connect, hws]
    · simp [connect, h, hws]
  · simp [connect, onopen, WSService.send, clearReconnectTimer]

/-- Witness for C7: from the fresh service, a second `connect` issued
while the first attempt is in flight is a no-op, and an open appends the
single `get_notifications`. -/
theorem connect_reentrant_witness :
    connect 7 "x" false (connect 42 "tok" true WSService.init)
      = connect 42 "tok" true WSService.init ∧
    (onopen WSService.init).sentLog
      = WSService.init.sentLog ++ ["get_notifications"] :=
  ⟨(connect_reentrant_single_pull WSService.init 42 7 "tok" "x" true
      false).2.2.2.2.1 rfl,
   (connect_reentrant_single_pull WSService.init 42 7 "tok" "x" true
      false).2.1⟩

/-- Claim C10: when the socket constructor throws, `connect` emits
`error` and clears the connecting flag, but the identity assigned just
before the `try` block survives (only `disconnect()` nulls it), so a
later abnormal close under a truthy identity still schedules the
3-second auto-reconnect. -/
theorem connect_ctor_throw_keeps_identity (s : WSService) (u : Int)
    (t : String) (code : Int) (h1 : s.isConnecting = false)
    (h2 : s.ws ≠ some ReadyState.opened) :
    (connect u t false s).emitLog = s.emitLog ++ ["error"] ∧
    (connect u t false s).isConnecting = false ∧
    (connect u t false s).userId = some u ∧
    (connect u t false s).token = some t ∧
    (disconnect (connect u t false s)).userId = none ∧
    (disconnect (connect u t false s)).token = none ∧
    (u ≠ 0 → t ≠ "" → code ≠ 1000 →
      (onclose code (connect u t false s)).reconnectTimer = some 3000) := by
  obtain ⟨hdu, hdt, _⟩ := disconnect_clears (connect u t false s)
  refine ⟨?_, ?_, ?_, ?_, hdu, hdt, ?_⟩
  · simp [connect, h1, h2]
  · simp [connect, h1, h2]
  · simp [connect, h1, h2]
  · simp [connect, h1, h2]
  · intro hu ht hcode
    apply onclose_schedules code _ hcode
    have hid : hasIdentity (connect u t false s) = ((u != 0) && (t != "")) := by
      simp [connect, h1, h2, hasIdentity]
    rw [hid]
    simp [bne_iff_ne, hu, ht]

/-- Witness for C10: fresh service, identity 42/"tok", constructor
throw, then abnormal close 1006. -/
theorem connect_ctor_throw_witness :
    (connect 42 "tok" false WSService.init).userId = some 42 ∧
    (onclose 1006 (connect 42 "tok" false WSService.init)).reconnectTimer
      = some 3000 :=
  ⟨(connect_ctor_throw_keeps_identity WSService.init 42 "tok" 1006 rfl
      (by decide)).2.2.1,
   (connect_ctor_throw_keeps_identity WSService.init 42 "tok" 1006 rfl
      (by decide)).2.2.2.2.2.2 (by decide) (by decide) (by decide)⟩

lemma emitLoop_map (payload : String) (hs : List Listener) :
    emitLoop payload hs = hs.map (fun h => (h.hid, payload)) := by
  induction hs with
  | nil => rfl
  | cons h rest ih =>
    unfold emitLoop
    cases invokeListener h payload <;> simp [ih]

/-- Claim C8: `emit` invokes every currently registered callback for the
event name, in registration order, each paired with the payload — the
per-callback `try`/`catch` swallows a throw, so a throwing callback
(`throws = true`) still appears in the trace and so does every callback
registered after it; the registry is returned unchanged; and a name with
no listeners (absent key or empty array) yields an empty trace. -/
theorem emit_in_order_isolated (d : Dispatcher) (e payload : String) :
    (emit d e payload).2 = d ∧
    (emit d e payload).1 =
      ((getListeners d.listeners e).getD []).map
        (fun h => (h.hid, payload)) := by
  cases hg : getListeners d.listeners e with
  | none => simp [emit, hg]
  | some hs => simp [emit, hg, emitLoop_map]

/-- Witness for the amended C1 theorem at a concrete store: a failed
REST call leaves the one-unread store unchanged, and after a successful
`markAllAsRead` the (sole) entry is read. -/
theorem mark_ops_update_witness :
    markAsRead false 1 ⟨[n1unread], 1⟩ = ⟨[n1unread], 1⟩ ∧
    n1read.is_read = true :=
  ⟨(mark_ops_update_only_on_rest_success ⟨[n1unread], 1⟩ 1).1,
   (mark_ops_update_only_on_rest_success ⟨[n1unread], 1⟩ 1).2.2.2.2.1
     n1read (by decide)⟩

/-- Witness for the amended C2 theorem at a concrete store: marking the
absent id 2 as read preserves the read flag of entry 1. -/
theorem mutations_preserve_read_witness :
    preservesRead [n1read]
      (stepStore (StoreEvent.markRead true 2) ⟨[n1read], 1⟩).notifications :=
  (mutations_preserve_read_flag ⟨[n1read], 1⟩ true 2).1
